import Mathlib

/-!
Shallow embedding of the data-model layer of `app/models.py` (a SQLModel
schema file for a food-image nutrition-analysis application), together with
theorems settling the specification claims about it.

Conventions of the embedding:
* `datetime` values are modelled as `Nat` (an abstract instant); the ambient
  clock read by a `default_factory=datetime.utcnow` default is passed to each
  constructor as an explicit `now : Nat` argument.
* Python `Decimal` values are modelled by their sign-carrying coefficient and
  exponent (`value = mant * 10 ^ exp`), exactly the data pydantic inspects
  when it enforces `max_digits` / `decimal_places`.
* `Construct` validates every field against the constraints declared with
  `Field(...)` in the source and either returns the materialized record or
  the list of field errors, mirroring pydantic's ValidationError, which
  names the offending field and constraint.
* An omitted (defaultable) input field is represented by `none`.
-/

/-- Outcome of validating one field: the field name and the violated
constraint, as carried by a pydantic ValidationError entry. -/
structure ValidationError where
  field : String
  constraint : String
deriving DecidableEq, Repr

/-- Result of constructing a record: either the record or the collected
field errors (pydantic reports all failing fields at once). -/
inductive VResult (α : Type) where
  | ok : α → VResult α
  | error : List ValidationError → VResult α
deriving DecidableEq, Repr

/-- Whether construction succeeded. -/
def VResult.isOk {α : Type} : VResult α → Bool
  | .ok _ => true
  | .error _ => false

/-- A Python `Decimal`: coefficient and exponent, `value = mant * 10 ^ exp`.
`Decimal("1.0001")` is `⟨10001, -4⟩`; `Decimal("42")` is `⟨42, 0⟩`. -/
structure Decimal where
  mant : Int
  exp : Int
deriving DecidableEq, Repr

/-- Number of digits of the coefficient as written in base 10 (the length of
the digit tuple of `Decimal.as_tuple()`; the coefficient `0` has one digit). -/
def numDigits (n : Nat) : Nat := (Nat.toDigits 10 n).length

/-- The `(digits, decimal places)` pair pydantic computes from a decimal's
digit tuple and exponent when checking `max_digits` / `decimal_places`. -/
def decDigits (d : Decimal) : Nat × Nat :=
  let len := numDigits d.mant.natAbs
  if 0 ≤ d.exp then
    (len + d.exp.toNat, 0)
  else
    let e := (-d.exp).toNat
    if len < e then (e, e) else (len, e)

/-- pydantic's decimal check for `Field(max_digits := md, decimal_places := dp)`:
total digits at most `md`, fractional digits at most `dp`, and whole digits at
most `md - dp`. -/
def decimalOk (md dp : Nat) (d : Decimal) : Bool :=
  let p := decDigits d
  decide (p.1 ≤ md) && decide (p.2 ≤ dp) && decide (p.1 - p.2 ≤ md - dp)

/-- Character class `[a-zA-Z0-9_.+-]` (the local part of the email pattern). -/
def localChar (c : Char) : Bool :=
  c.isAlpha || c.isDigit || c = '_' || c = '.' || c = '+' || c = '-'

/-- Character class `[a-zA-Z0-9-]` (the domain label of the email pattern). -/
def domChar (c : Char) : Bool :=
  c.isAlpha || c.isDigit || c = '-'

/-- Character class `[a-zA-Z0-9-.]` (the part after the first dot of the
domain in the email pattern). -/
def tailChar (c : Char) : Bool :=
  c.isAlpha || c.isDigit || c = '-' || c = '.'

/-- Split a character list at the first occurrence of `c`, returning the
parts before and after it. -/
def splitAtFirst (c : Char) : List Char → Option (List Char × List Char)
  | [] => none
  | x :: xs =>
    if x = c then some ([], xs)
    else
      match splitAtFirst c xs with
      | none => none
      | some (l, r) => some (x :: l, r)

/-- Whether a character list is matched in full by
`^[a-zA-Z0-9_.+-]+@[a-zA-Z0-9-]+\.[a-zA-Z0-9-.]+$`: a nonempty local part,
one `@`, a nonempty dot-free domain label, one `.`, and a nonempty tail.
None of the classes contains `@`, so the `@` of a match is the first `@` of
the string; the domain class contains no `.`, so its dot is the first `.`
after the `@`. -/
def emailCore (cs : List Char) : Bool :=
  match splitAtFirst '@' cs with
  | none => false
  | some (loc, rest) =>
    !loc.isEmpty && loc.all localChar && !rest.contains '@' &&
    match splitAtFirst '.' rest with
    | none => false
    | some (dom, tl) =>
      !dom.isEmpty && dom.all domChar && !tl.isEmpty && tl.all tailChar

/-- `re.match` of the email pattern against a string, as pydantic runs it:
in Python `$` also matches just before one newline at the very end of the
string, so a matching body followed by a single trailing newline is accepted
as well. -/
def emailMatch (s : String) : Bool :=
  emailCore s.data ||
    (s.data.getLast? = some '\n' && emailCore s.data.dropLast)

/-- The constraint text for a `max_length` violation. -/
def lenConstraint (n : Nat) : String := "max_length " ++ toString n

/-- Errors of a required string field with a `max_length` bound. -/
def strErr (f : String) (maxLen : Nat) (s : String) : List ValidationError :=
  if s.length ≤ maxLen then [] else [⟨f, lenConstraint maxLen⟩]

/-- Errors of an optional string field with a `max_length` bound; an absent
value is not validated. -/
def optStrErr (f : String) (maxLen : Nat) : Option String → List ValidationError
  | none => []
  | some s => strErr f maxLen s

/-- The constraint text for a decimal precision violation. -/
def decConstraint (md dp : Nat) : String :=
  "max_digits " ++ toString md ++ " decimal_places " ++ toString dp

/-- Errors of an optional decimal field with `max_digits` / `decimal_places`
bounds; an absent value is not validated. -/
def optDecErr (f : String) (md dp : Nat) : Option Decimal → List ValidationError
  | none => []
  | some d => if decimalOk md dp d then [] else [⟨f, decConstraint md dp⟩]

/-- Errors of `User.email` (`max_length=255` and the email regex); as in
pydantic's ConstrainedStr, the length check runs before the regex check, so
at most one error is reported for the field. -/
def emailErr (s : String) : List ValidationError :=
  if s.length ≤ 255 then
    if emailMatch s then [] else [⟨"email", "regex email pattern"⟩]
  else [⟨"email", lenConstraint 255⟩]

/-! ## User -/

/-- Field values supplied to `Construct(User, ...)`; defaultable fields are
optional and `none` means omitted. -/
structure UserInput where
  id : Option Int := none
  username : String
  email : String
  full_name : Option String := none
  is_active : Option Bool := none
  created_at : Option Nat := none
  updated_at : Option Nat := none
deriving DecidableEq, Repr

/-- A materialized `User` row (relationship attributes are persistence-side
and carry no field state of their own). -/
structure UserRec where
  id : Option Int
  username : String
  email : String
  full_name : Option String
  is_active : Bool
  created_at : Nat
  updated_at : Nat
deriving DecidableEq, Repr

/-- The field errors of a `User` input: `username` max_length 50, `email`
max_length 255 and regex, `full_name` max_length 100. -/
def userErrors (i : UserInput) : List ValidationError :=
  strErr "username" 50 i.username ++ emailErr i.email ++
    optStrErr "full_name" 100 i.full_name

/-- `Construct(User, ...)`: validate every declared constraint; on success
materialize the record, filling the declared defaults (`is_active := True`,
`created_at`/`updated_at` from the clock `now` read by `default_factory`). -/
def constructUser (now : Nat) (i : UserInput) : VResult UserRec :=
  match userErrors i with
  | [] => .ok
      { id := i.id
        username := i.username
        email := i.email
        full_name := i.full_name
        is_active := i.is_active.getD true
        created_at := i.created_at.getD now
        updated_at := i.updated_at.getD now }
  | e :: es => .error (e :: es)

/-! ## FoodImage -/

/-- Field values supplied to `Construct(FoodImage, ...)`. -/
structure FoodImageInput where
  id : Option Int := none
  user_id : Int
  filename : String
  file_path : String
  file_size : Int
  mime_type : String
  original_filename : Option String := none
  description : Option String := none
  uploaded_at : Option Nat := none
deriving DecidableEq, Repr

/-- A materialized `FoodImage` row. -/
structure FoodImageRec where
  id : Option Int
  user_id : Int
  filename : String
  file_path : String
  file_size : Int
  mime_type : String
  original_filename : Option String
  description : Option String
  uploaded_at : Nat
deriving DecidableEq, Repr

/-- The field errors of a `FoodImage` input: `filename` max_length 255,
`file_path` max_length 500, `file_size` gt 0, `mime_type` max_length 100,
`original_filename` max_length 255, `description` max_length 1000. -/
def foodImageErrors (i : FoodImageInput) : List ValidationError :=
  strErr "filename" 255 i.filename ++ strErr "file_path" 500 i.file_path ++
    (if 0 < i.file_size then [] else [⟨"file_size", "gt 0"⟩]) ++
    strErr "mime_type" 100 i.mime_type ++
    optStrErr "original_filename" 255 i.original_filename ++
    optStrErr "description" 1000 i.description

/-- `Construct(FoodImage, ...)`. -/
def constructFoodImage (now : Nat) (i : FoodImageInput) : VResult FoodImageRec :=
  match foodImageErrors i with
  | [] => .ok
      { id := i.id
        user_id := i.user_id
        filename := i.filename
        file_path := i.file_path
        file_size := i.file_size
        mime_type := i.mime_type
        original_filename := i.original_filename
        description := i.description
        uploaded_at := i.uploaded_at.getD now }
  | e :: es => .error (e :: es)

/-! ## NutritionalAnalysis -/

/-- Lifecycle state of a `NutritionalAnalysis` (`AnalysisStatus`). -/
inductive AnalysisStatus where
  | pending
  | processing
  | completed
  | failed
deriving DecidableEq, Repr

/-- Severity of an allergen association (`AllergenSeverity`). -/
inductive AllergenSeverity where
  | low
  | medium
  | high
  | severe
deriving DecidableEq, Repr

/-- The opaque `raw_response` JSON document: a schema-less key-value map. -/
abbrev RawDoc : Type := List (String × String)

/-- Field values supplied to `Construct(NutritionalAnalysis, ...)`. -/
structure NAInput where
  id : Option Int := none
  food_image_id : Int
  status : Option AnalysisStatus := none
  food_name : Option String := none
  food_category : Option String := none
  confidence_score : Option Decimal := none
  calories : Option Decimal := none
  protein : Option Decimal := none
  carbohydrates : Option Decimal := none
  total_fat : Option Decimal := none
  saturated_fat : Option Decimal := none
  fiber : Option Decimal := none
  sugar : Option Decimal := none
  sodium : Option Decimal := none
  vitamin_a : Option Decimal := none
  vitamin_c : Option Decimal := none
  vitamin_d : Option Decimal := none
  vitamin_e : Option Decimal := none
  vitamin_k : Option Decimal := none
  vitamin_b1 : Option Decimal := none
  vitamin_b2 : Option Decimal := none
  vitamin_b3 : Option Decimal := none
  vitamin_b6 : Option Decimal := none
  vitamin_b12 : Option Decimal := none
  folate : Option Decimal := none
  calcium : Option Decimal := none
  iron : Option Decimal := none
  magnesium : Option Decimal := none
  phosphorus : Option Decimal := none
  potassium : Option Decimal := none
  zinc : Option Decimal := none
  estimated_weight : Option Decimal := none
  serving_size : Option String := none
  analysis_model : Option String := none
  analysis_version : Option String := none
  processing_time : Option Decimal := none
  error_message : Option String := none
  raw_response : Option RawDoc := none
  created_at : Option Nat := none
  updated_at : Option Nat := none
deriving DecidableEq, Repr

/-- A materialized `NutritionalAnalysis` row. -/
structure NARec where
  id : Option Int
  food_image_id : Int
  status : AnalysisStatus
  food_name : Option String
  food_category : Option String
  confidence_score : Option Decimal
  calories : Option Decimal
  protein : Option Decimal
  carbohydrates : Option Decimal
  total_fat : Option Decimal
  saturated_fat : Option Decimal
  fiber : Option Decimal
  sugar : Option Decimal
  sodium : Option Decimal
  vitamin_a : Option Decimal
  vitamin_c : Option Decimal
  vitamin_d : Option Decimal
  vitamin_e : Option Decimal
  vitamin_k : Option Decimal
  vitamin_b1 : Option Decimal
  vitamin_b2 : Option Decimal
  vitamin_b3 : Option Decimal
  vitamin_b6 : Option Decimal
  vitamin_b12 : Option Decimal
  folate : Option Decimal
  calcium : Option Decimal
  iron : Option Decimal
  magnesium : Option Decimal
  phosphorus : Option Decimal
  potassium : Option Decimal
  zinc : Option Decimal
  estimated_weight : Option Decimal
  serving_size : Option String
  analysis_model : Option String
  analysis_version : Option String
  processing_time : Option Decimal
  error_message : Option String
  raw_response : Option RawDoc
  created_at : Nat
  updated_at : Nat
deriving DecidableEq, Repr

/-- The field errors of a `NutritionalAnalysis` input, in declaration order:
strings by `max_length`, `confidence_score` as a (5, 4) decimal, the nutrient,
portion and `processing_time` decimals by their declared precision. -/
def naErrors (i : NAInput) : List ValidationError :=
  optStrErr "food_name" 200 i.food_name ++
    optStrErr "food_category" 100 i.food_category ++
    optDecErr "confidence_score" 5 4 i.confidence_score ++
    optDecErr "calories" 8 2 i.calories ++
    optDecErr "protein" 8 2 i.protein ++
    optDecErr "carbohydrates" 8 2 i.carbohydrates ++
    optDecErr "total_fat" 8 2 i.total_fat ++
    optDecErr "saturated_fat" 8 2 i.saturated_fat ++
    optDecErr "fiber" 8 2 i.fiber ++
    optDecErr "sugar" 8 2 i.sugar ++
    optDecErr "sodium" 8 2 i.sodium ++
    optDecErr "vitamin_a" 8 2 i.vitamin_a ++
    optDecErr "vitamin_c" 8 2 i.vitamin_c ++
    optDecErr "vitamin_d" 8 2 i.vitamin_d ++
    optDecErr "vitamin_e" 8 2 i.vitamin_e ++
    optDecErr "vitamin_k" 8 2 i.vitamin_k ++
    optDecErr "vitamin_b1" 8 2 i.vitamin_b1 ++
    optDecErr "vitamin_b2" 8 2 i.vitamin_b2 ++
    optDecErr "vitamin_b3" 8 2 i.vitamin_b3 ++
    optDecErr "vitamin_b6" 8 2 i.vitamin_b6 ++
    optDecErr "vitamin_b12" 8 2 i.vitamin_b12 ++
    optDecErr "folate" 8 2 i.folate ++
    optDecErr "calcium" 8 2 i.calcium ++
    optDecErr "iron" 8 2 i.iron ++
    optDecErr "magnesium" 8 2 i.magnesium ++
    optDecErr "phosphorus" 8 2 i.phosphorus ++
    optDecErr "potassium" 8 2 i.potassium ++
    optDecErr "zinc" 8 2 i.zinc ++
    optDecErr "estimated_weight" 8 2 i.estimated_weight ++
    optStrErr "serving_size" 100 i.serving_size ++
    optStrErr "analysis_model" 100 i.analysis_model ++
    optStrErr "analysis_version" 50 i.analysis_version ++
    optDecErr "processing_time" 8 3 i.processing_time ++
    optStrErr "error_message" 1000 i.error_message

/-- `Construct(NutritionalAnalysis, ...)`; `status` defaults to `pending`,
the timestamps to the clock reading. -/
def constructNutritionalAnalysis (now : Nat) (i : NAInput) : VResult NARec :=
  match naErrors i with
  | [] => .ok
      { id := i.id
        food_image_id := i.food_image_id
        status := i.status.getD .pending
        food_name := i.food_name
        food_category := i.food_category
        confidence_score := i.confidence_score
        calories := i.calories
        protein := i.protein
        carbohydrates := i.carbohydrates
        total_fat := i.total_fat
        saturated_fat := i.saturated_fat
        fiber := i.fiber
        sugar := i.sugar
        sodium := i.sodium
        vitamin_a := i.vitamin_a
        vitamin_c := i.vitamin_c
        vitamin_d := i.vitamin_d
        vitamin_e := i.vitamin_e
        vitamin_k := i.vitamin_k
        vitamin_b1 := i.vitamin_b1
        vitamin_b2 := i.vitamin_b2
        vitamin_b3 := i.vitamin_b3
        vitamin_b6 := i.vitamin_b6
        vitamin_b12 := i.vitamin_b12
        folate := i.folate
        calcium := i.calcium
        iron := i.iron
        magnesium := i.magnesium
        phosphorus := i.phosphorus
        potassium := i.potassium
        zinc := i.zinc
        estimated_weight := i.estimated_weight
        serving_size := i.serving_size
        analysis_model := i.analysis_model
        analysis_version := i.analysis_version
        processing_time := i.processing_time
        error_message := i.error_message
        raw_response := i.raw_response
        created_at := i.created_at.getD now
        updated_at := i.updated_at.getD now }
  | e :: es => .error (e :: es)

/-! ## AnalysisAllergen and UserAllergen -/

/-- Field values supplied to `Construct(AnalysisAllergen, ...)`. -/
structure AnalysisAllergenInput where
  id : Option Int := none
  analysis_id : Int
  allergen_id : Int
  severity : Option AllergenSeverity := none
  confidence : Option Decimal := none
  notes : Option String := none
  detected_at : Option Nat := none
deriving DecidableEq, Repr

/-- A materialized `AnalysisAllergen` row. -/
structure AnalysisAllergenRec where
  id : Option Int
  analysis_id : Int
  allergen_id : Int
  severity : AllergenSeverity
  confidence : Option Decimal
  notes : Option String
  detected_at : Nat
deriving DecidableEq, Repr

/-- The field errors of an `AnalysisAllergen` input: `confidence` as a
(5, 4) decimal, `notes` max_length 500. -/
def analysisAllergenErrors (i : AnalysisAllergenInput) : List ValidationError :=
  optDecErr "confidence" 5 4 i.confidence ++ optStrErr "notes" 500 i.notes

/-- `Construct(AnalysisAllergen, ...)`; `severity` defaults to `low`. -/
def constructAnalysisAllergen (now : Nat) (i : AnalysisAllergenInput) :
    VResult AnalysisAllergenRec :=
  match analysisAllergenErrors i with
  | [] => .ok
      { id := i.id
        analysis_id := i.analysis_id
        allergen_id := i.allergen_id
        severity := i.severity.getD .low
        confidence := i.confidence
        notes := i.notes
        detected_at := i.detected_at.getD now }
  | e :: es => .error (e :: es)

/-- Field values supplied to `Construct(UserAllergen, ...)`. -/
structure UserAllergenInput where
  id : Option Int := none
  user_id : Int
  allergen_id : Int
  severity : Option AllergenSeverity := none
  notes : Option String := none
  created_at : Option Nat := none
deriving DecidableEq, Repr

/-- A materialized `UserAllergen` row. -/
structure UserAllergenRec where
  id : Option Int
  user_id : Int
  allergen_id : Int
  severity : AllergenSeverity
  notes : Option String
  created_at : Nat
deriving DecidableEq, Repr

/-- The field errors of a `UserAllergen` input: `notes` max_length 500. -/
def userAllergenErrors (i : UserAllergenInput) : List ValidationError :=
  optStrErr "notes" 500 i.notes

/-- `Construct(UserAllergen, ...)`; `severity` defaults to `medium`. -/
def constructUserAllergen (now : Nat) (i : UserAllergenInput) :
    VResult UserAllergenRec :=
  match userAllergenErrors i with
  | [] => .ok
      { id := i.id
        user_id := i.user_id
        allergen_id := i.allergen_id
        severity := i.severity.getD .medium
        notes := i.notes
        created_at := i.created_at.getD now }
  | e :: es => .error (e :: es)

/-! ## Create transfer shapes -/

/-- The `UserCreate` shape: author-supplied `User` fields. Its `email` field
declares only `max_length=255` — no regex. -/
structure UserCreateInput where
  username : String
  email : String
  full_name : Option String := none
deriving DecidableEq, Repr

/-- The field errors of a `UserCreate` input: `username` max_length 50,
`email` max_length 255, `full_name` max_length 100. -/
def userCreateErrors (i : UserCreateInput) : List ValidationError :=
  strErr "username" 50 i.username ++ strErr "email" 255 i.email ++
    optStrErr "full_name" 100 i.full_name

/-- `Construct(UserCreate, ...)`: the materialized shape carries exactly the
supplied fields. -/
def constructUserCreate (i : UserCreateInput) : VResult UserCreateInput :=
  match userCreateErrors i with
  | [] => .ok i
  | e :: es => .error (e :: es)

/-- The `NutritionalAnalysisCreate` shape. Every decimal field is declared
as a bare `Field(default=None)` — no `decimal_places` / `max_digits`. -/
structure NACreateInput where
  food_image_id : Int
  food_name : Option String := none
  food_category : Option String := none
  confidence_score : Option Decimal := none
  calories : Option Decimal := none
  protein : Option Decimal := none
  carbohydrates : Option Decimal := none
  total_fat : Option Decimal := none
  saturated_fat : Option Decimal := none
  fiber : Option Decimal := none
  sugar : Option Decimal := none
  sodium : Option Decimal := none
  vitamin_a : Option Decimal := none
  vitamin_c : Option Decimal := none
  vitamin_d : Option Decimal := none
  vitamin_e : Option Decimal := none
  vitamin_k : Option Decimal := none
  vitamin_b1 : Option Decimal := none
  vitamin_b2 : Option Decimal := none
  vitamin_b3 : Option Decimal := none
  vitamin_b6 : Option Decimal := none
  vitamin_b12 : Option Decimal := none
  folate : Option Decimal := none
  calcium : Option Decimal := none
  iron : Option Decimal := none
  magnesium : Option Decimal := none
  phosphorus : Option Decimal := none
  potassium : Option Decimal := none
  zinc : Option Decimal := none
  estimated_weight : Option Decimal := none
  serving_size : Option String := none
  analysis_model : Option String := none
  analysis_version : Option String := none
  processing_time : Option Decimal := none
deriving DecidableEq, Repr

/-- The field errors of a `NutritionalAnalysisCreate` input: only the string
fields carry constraints (`max_length`); the decimal fields are unchecked. -/
def naCreateErrors (i : NACreateInput) : List ValidationError :=
  optStrErr "food_name" 200 i.food_name ++
    optStrErr "food_category" 100 i.food_category ++
    optStrErr "serving_size" 100 i.serving_size ++
    optStrErr "analysis_model" 100 i.analysis_model ++
    optStrErr "analysis_version" 50 i.analysis_version

/-- `Construct(NutritionalAnalysisCreate, ...)`. -/
def constructNACreate (i : NACreateInput) : VResult NACreateInput :=
  match naCreateErrors i with
  | [] => .ok i
  | e :: es => .error (e :: es)

/-- The `AnalysisAllergenCreate` shape; `severity` defaults to `low` and its
`confidence` field is a bare `Field(default=None)` — no decimal constraint. -/
structure AnalysisAllergenCreateInput where
  analysis_id : Int
  allergen_id : Int
  severity : Option AllergenSeverity := none
  confidence : Option Decimal := none
  notes : Option String := none
deriving DecidableEq, Repr

/-- The materialized `AnalysisAllergenCreate` shape, defaults resolved. -/
structure AnalysisAllergenCreateRec where
  analysis_id : Int
  allergen_id : Int
  severity : AllergenSeverity
  confidence : Option Decimal
  notes : Option String
deriving DecidableEq, Repr

/-- The field errors of an `AnalysisAllergenCreate` input: `notes`
max_length 500. -/
def analysisAllergenCreateErrors (i : AnalysisAllergenCreateInput) :
    List ValidationError :=
  optStrErr "notes" 500 i.notes

/-- `Construct(AnalysisAllergenCreate, ...)`; `severity` defaults to `low`,
an omitted `confidence` stays absent. -/
def constructAnalysisAllergenCreate (i : AnalysisAllergenCreateInput) :
    VResult AnalysisAllergenCreateRec :=
  match analysisAllergenCreateErrors i with
  | [] => .ok
      { analysis_id := i.analysis_id
        allergen_id := i.allergen_id
        severity := i.severity.getD .low
        confidence := i.confidence
        notes := i.notes }
  | e :: es => .error (e :: es)

/-- The `UserAllergenCreate` shape; `severity` defaults to `medium`. -/
structure UserAllergenCreateInput where
  user_id : Int
  allergen_id : Int
  severity : Option AllergenSeverity := none
  notes : Option String := none
deriving DecidableEq, Repr

/-- The materialized `UserAllergenCreate` shape, defaults resolved. -/
structure UserAllergenCreateRec where
  user_id : Int
  allergen_id : Int
  severity : AllergenSeverity
  notes : Option String
deriving DecidableEq, Repr

/-- The field errors of a `UserAllergenCreate` input: `notes` max_length 500. -/
def userAllergenCreateErrors (i : UserAllergenCreateInput) :
    List ValidationError :=
  optStrErr "notes" 500 i.notes

/-- `Construct(UserAllergenCreate, ...)`; `severity` defaults to `medium`. -/
def constructUserAllergenCreate (i : UserAllergenCreateInput) :
    VResult UserAllergenCreateRec :=
  match userAllergenCreateErrors i with
  | [] => .ok
      { user_id := i.user_id
        allergen_id := i.allergen_id
        severity := i.severity.getD .medium
        notes := i.notes }
  | e :: es => .error (e :: es)

/-- The author-supplied fields of a `User` input, as a `UserCreate` shape. -/
def UserInput.toCreate (i : UserInput) : UserCreateInput :=
  { username := i.username, email := i.email, full_name := i.full_name }

/-- The author-supplied fields of a `NutritionalAnalysis` input, as a
`NutritionalAnalysisCreate` shape. -/
def NAInput.toCreate (i : NAInput) : NACreateInput :=
  { food_image_id := i.food_image_id
    food_name := i.food_name
    food_category := i.food_category
    confidence_score := i.confidence_score
    calories := i.calories
    protein := i.protein
    carbohydrates := i.carbohydrates
    total_fat := i.total_fat
    saturated_fat := i.saturated_fat
    fiber := i.fiber
    sugar := i.sugar
    sodium := i.sodium
    vitamin_a := i.vitamin_a
    vitamin_c := i.vitamin_c
    vitamin_d := i.vitamin_d
    vitamin_e := i.vitamin_e
    vitamin_k := i.vitamin_k
    vitamin_b1 := i.vitamin_b1
    vitamin_b2 := i.vitamin_b2
    vitamin_b3 := i.vitamin_b3
    vitamin_b6 := i.vitamin_b6
    vitamin_b12 := i.vitamin_b12
    folate := i.folate
    calcium := i.calcium
    iron := i.iron
    magnesium := i.magnesium
    phosphorus := i.phosphorus
    potassium := i.potassium
    zinc := i.zinc
    estimated_weight := i.estimated_weight
    serving_size := i.serving_size
    analysis_model := i.analysis_model
    analysis_version := i.analysis_version
    processing_time := i.processing_time }

/-! ## Update transfer shapes and ApplyUpdate -/

/-- The `UserUpdate` shape: every field optional, `none` meaning absent. -/
structure UserUpdate where
  username : Option String := none
  email : Option String := none
  full_name : Option String := none
  is_active : Option Bool := none
deriving DecidableEq, Repr

/-- The `NutritionalAnalysisUpdate` shape: every field optional, `none`
meaning absent. -/
structure NAUpdate where
  status : Option AnalysisStatus := none
  error_message : Option String := none
  raw_response : Option RawDoc := none
deriving DecidableEq, Repr

/-- Modelled from the spec: `ApplyUpdate(record, update shape)` for `User` —
the repository declares the update shape but contains no apply routine, so
this follows the specified partial-patch semantics: each field present in
the update overwrites the record's field, each absent field leaves it
unchanged (the `updated_at` bump is the persistence layer's job, not this
operation's). -/
def applyUserUpdate (r : UserRec) (u : UserUpdate) : UserRec :=
  { r with
    username := u.username.getD r.username
    email := u.email.getD r.email
    full_name := match u.full_name with | some s => some s | none => r.full_name
    is_active := u.is_active.getD r.is_active }

/-- Modelled from the spec: `ApplyUpdate(record, update shape)` for
`NutritionalAnalysis`, with the same partial-patch semantics. -/
def applyNAUpdate (r : NARec) (u : NAUpdate) : NARec :=
  { r with
    status := u.status.getD r.status
    error_message := match u.error_message with | some s => some s | none => r.error_message
    raw_response := match u.raw_response with | some d => some d | none => r.raw_response }

/-- The all-absent `UserUpdate`. -/
def emptyUserUpdate : UserUpdate := {}

/-- The all-absent `NutritionalAnalysisUpdate`. -/
def emptyNAUpdate : NAUpdate := {}

/-! ## Response shapes -/

/-- The field names of the persistent `NutritionalAnalysis` row, in
declaration order (relationship attributes excluded). -/
def nutritionalAnalysisFields : List String :=
  ["id", "food_image_id", "status", "food_name", "food_category",
   "confidence_score", "calories", "protein", "carbohydrates", "total_fat",
   "saturated_fat", "fiber", "sugar", "sodium", "vitamin_a", "vitamin_c",
   "vitamin_d", "vitamin_e", "vitamin_k", "vitamin_b1", "vitamin_b2",
   "vitamin_b3", "vitamin_b6", "vitamin_b12", "folate", "calcium", "iron",
   "magnesium", "phosphorus", "potassium", "zinc", "estimated_weight",
   "serving_size", "analysis_model", "analysis_version", "processing_time",
   "error_message", "raw_response", "created_at", "updated_at"]

/-- The field names of the `NutritionalAnalysisResponse` shape, in
declaration order. -/
def nutritionalAnalysisResponseFields : List String :=
  ["id", "food_image_id", "status", "food_name", "food_category",
   "confidence_score", "calories", "protein", "carbohydrates", "total_fat",
   "fiber", "sugar", "sodium", "vitamin_c", "calcium", "iron",
   "estimated_weight", "serving_size", "created_at", "allergens"]

/-- The field names of the `FoodImageResponse` shape, in declaration order. -/
def foodImageResponseFields : List String :=
  ["id", "filename", "original_filename", "file_size", "description",
   "uploaded_at", "analysis_status"]

/-- The `NutritionalAnalysisResponse` shape. -/
structure NAResponse where
  id : Int
  food_image_id : Int
  status : AnalysisStatus
  food_name : Option String
  food_category : Option String
  confidence_score : Option Decimal
  calories : Option Decimal
  protein : Option Decimal
  carbohydrates : Option Decimal
  total_fat : Option Decimal
  fiber : Option Decimal
  sugar : Option Decimal
  sodium : Option Decimal
  vitamin_c : Option Decimal
  calcium : Option Decimal
  iron : Option Decimal
  estimated_weight : Option Decimal
  serving_size : Option String
  created_at : String
  allergens : List String
deriving DecidableEq, Repr

/-- Modelled from the spec: the ISO-8601 rendering of a timestamp, modelled
as an injective numeral rendering of the abstract instant. -/
def isoString (t : Nat) : String := toString t

/-- Modelled from the spec: `ProjectToResponse` for `NutritionalAnalysis` —
the repository declares the response shape but contains no projection
routine, so this maps the persistent record (with its assigned id and the
joined allergen names) onto the declared response fields: the curated subset
of record fields, the timestamp as an ISO string, the allergen associations
flattened to name strings. -/
def projectNAToResponse (rid : Int) (allergenNames : List String) (r : NARec) :
    NAResponse :=
  { id := rid
    food_image_id := r.food_image_id
    status := r.status
    food_name := r.food_name
    food_category := r.food_category
    confidence_score := r.confidence_score
    calories := r.calories
    protein := r.protein
    carbohydrates := r.carbohydrates
    total_fat := r.total_fat
    fiber := r.fiber
    sugar := r.sugar
    sodium := r.sodium
    vitamin_c := r.vitamin_c
    calcium := r.calcium
    iron := r.iron
    estimated_weight := r.estimated_weight
    serving_size := r.serving_size
    created_at := isoString r.created_at
    allergens := allergenNames }

/-- Modelled from the spec: the response shape of a `User` — the repository
declares no `UserResponse`, so this follows the specified projection
contract: the displayed fields of the record, unchanged, with the timestamp
as an ISO string. -/
structure UserResponse where
  username : String
  email : String
  full_name : Option String
  is_active : Bool
  created_at : String
deriving DecidableEq, Repr

/-- Modelled from the spec: `ProjectToResponse` for `User`, copying each
displayed field of the record verbatim. -/
def projectUserToResponse (u : UserRec) : UserResponse :=
  { username := u.username
    email := u.email
    full_name := u.full_name
    is_active := u.is_active
    created_at := isoString u.created_at }

/-! ## Concrete inputs used by witnesses and counterexamples -/

/-- A valid `User` input: short username, email matching the pattern. -/
def validUser : UserInput := { username := "alice", email := "a@b.c" }

/-- A valid `NutritionalAnalysis` input: just the required foreign key. -/
def validNA : NAInput := { food_image_id := 42 }

/-- A `User` input whose email does not match the email pattern. -/
def badEmailUser : UserInput := { username := "bob", email := "not-an-email" }

/-- A `FoodImage` input that is valid except for `file_size = 0`. -/
def zeroSizeImage : FoodImageInput :=
  { user_id := 1, filename := "meal.jpg", file_path := "uploads/meal.jpg",
    file_size := 0, mime_type := "image/jpeg" }

/-- A valid `User` input with both timestamps supplied explicitly. -/
def stampedUser : UserInput :=
  { username := "alice", email := "a@b.c",
    created_at := some 7, updated_at := some 7 }

/-- A valid `NutritionalAnalysis` input with both timestamps supplied
explicitly. -/
def stampedNA : NAInput :=
  { food_image_id := 42, created_at := some 7, updated_at := some 7 }

/-! ## Helper lemma -/

/-- If the email field of a `User` input validates, then the length bound
alone (which is the whole constraint `UserCreate.email` declares) also
validates. -/
theorem emailErr_nil_length {s : String} (h : emailErr s = []) :
    strErr "email" 255 s = [] := by
  by_cases hl : s.length ≤ 255
  · simp [strErr, hl]
  · exfalso
    unfold emailErr at h
    rw [if_neg hl] at h
    simp at h

/-! ## Claim C1 -/

/-- C1, counterexample: the Create shapes do not carry the same validation
constraints as their persistent counterparts. The email string
"not-an-email" is accepted by `UserCreate` (which declares only a length
bound) but rejected by `User` (whose email declares the regex); the decimal
0.123 (three decimal places) is accepted by the unconstrained
`NutritionalAnalysisCreate.calories` but rejected by the
`decimal_places=2, max_digits=8` constraint of
`NutritionalAnalysis.calories`. -/
theorem create_constraints_differ_cex :
    (constructUserCreate { username := "u", email := "not-an-email" }).isOk = true ∧
    (constructUser 0 { username := "u", email := "not-an-email" }).isOk = false ∧
    (constructNACreate { food_image_id := 1, calories := some ⟨123, -3⟩ }).isOk = true ∧
    (constructNutritionalAnalysis 0
        { food_image_id := 1, calories := some ⟨123, -3⟩ }).isOk = false := by
  decide

/-- C1, amended: the Create shapes accept at least every input their
persistent counterpart accepts — the shared `max_length` string bounds
match — but not exactly the same inputs: `UserCreate.email` drops the email
regex and the `NutritionalAnalysisCreate` decimal fields drop the
`decimal_places`/`max_digits` precision constraints, so Create validation
is strictly weaker (see the counterexample). Stated here: any `User` or
`NutritionalAnalysis` input that passes persistent validation also passes
the corresponding Create-shape validation. -/
theorem create_shapes_accept_valid_persistent_inputs (i : UserInput) (j : NAInput)
    (hu : userErrors i = []) (hn : naErrors j = []) :
    constructUserCreate i.toCreate = .ok i.toCreate ∧
    constructNACreate j.toCreate = .ok j.toCreate := by
  unfold userErrors at hu
  simp only [List.append_eq_nil, and_assoc] at hu
  obtain ⟨hu1, hu2, hu3⟩ := hu
  unfold naErrors at hn
  simp only [List.append_eq_nil, and_assoc] at hn
  obtain ⟨n1, n2, n3, n4, n5, n6, n7, n8, n9, n10, n11, n12, n13, n14, n15,
    n16, n17, n18, n19, n20, n21, n22, n23, n24, n25, n26, n27, n28, n29,
    n30, n31, n32, n33, n34⟩ := hn
  constructor
  · have h : userCreateErrors i.toCreate = [] := by
      unfold userCreateErrors UserInput.toCreate
      simp only
      rw [hu1, emailErr_nil_length hu2, hu3]
      rfl
    unfold constructUserCreate
    rw [h]
  · have h : naCreateErrors j.toCreate = [] := by
      unfold naCreateErrors NAInput.toCreate
      simp only
      rw [n1, n2, n30, n31, n32]
      rfl
    unfold constructNACreate
    rw [h]

/-- C1, witness: the amended theorem applied to concrete valid inputs. -/
theorem create_shapes_accept_valid_persistent_inputs_witness :
    constructUserCreate validUser.toCreate = .ok validUser.toCreate ∧
    constructNACreate validNA.toCreate = .ok validNA.toCreate :=
  create_shapes_accept_valid_persistent_inputs validUser validNA
    (by decide) (by decide)

/-! ## Claim C2 -/

/-- C2: for every email string that does not match the pattern
`^[a-zA-Z0-9_.+-]+@[a-zA-Z0-9-]+\.[a-zA-Z0-9-.]+$` (as `re.match` applies
it), `Construct(User, ...)` fails with a ValidationError that names the
`email` field and its violated constraint; the value is never accepted. -/
theorem construct_user_rejects_unmatched_email (now : Nat) (i : UserInput)
    (h : emailMatch i.email = false) :
    ∃ es, constructUser now i = .error es ∧ ∃ e, e ∈ es ∧ e.field = "email" := by
  have hne : ∃ e ∈ userErrors i, e.field = "email" := by
    unfold userErrors
    rcases le_or_lt i.email.length 255 with hl | hl
    · refine ⟨⟨"email", "regex email pattern"⟩, ?_, rfl⟩
      simp [emailErr, hl, h]
    · refine ⟨⟨"email", lenConstraint 255⟩, ?_, rfl⟩
      simp [emailErr, Nat.not_le.mpr hl]
  obtain ⟨e, he, hf⟩ := hne
  cases hu : userErrors i with
  | nil => rw [hu] at he; cases he
  | cons a as =>
    rw [hu] at he
    exact ⟨a :: as, by simp [constructUser, hu], e, he, hf⟩

/-- C2, witness: the theorem applied to a concrete non-matching email. -/
theorem construct_user_rejects_unmatched_email_witness :
    ∃ es, constructUser 0 badEmailUser = .error es ∧
      ∃ e, e ∈ es ∧ e.field = "email" :=
  construct_user_rejects_unmatched_email 0 badEmailUser (by decide)

/-! ## Claim C3 -/

/-- C3, counterexample: the probability-like fields do not accept exactly
the values in [0.0000, 1.0000]. `Construct(NutritionalAnalysis,
food_image_id=42, confidence_score=1.0001)` succeeds — 1.0001 has five
digits and four decimal places, which satisfies the declared
`max_digits=5, decimal_places=4` constraint — and so does
`confidence_score=5.0`, which is outside [0, 1] altogether. -/
theorem confidence_1_0001_accepted :
    (constructNutritionalAnalysis 0
        { food_image_id := 42, confidence_score := some ⟨10001, -4⟩ }).isOk = true ∧
    (constructNutritionalAnalysis 0
        { food_image_id := 42, confidence_score := some ⟨50, -1⟩ }).isOk = true := by
  decide

/-- C3, amended: `NutritionalAnalysis.confidence_score` and
`AnalysisAllergen.confidence` accept exactly the decimals satisfying the
declared precision constraint `max_digits=5, decimal_places=4` (at most one
whole digit, at most four decimal places — hence every [0,1] value with four
decimal places, but also values such as 1.0001 or 5.0): with all other
fields valid, construction succeeds on such a confidence value if and only
if the precision check passes. -/
theorem confidence_fields_enforce_precision_only (d : Decimal) :
    (constructNutritionalAnalysis 0
        { food_image_id := 42, confidence_score := some d }).isOk
      = decimalOk 5 4 d ∧
    (constructAnalysisAllergen 0
        { analysis_id := 1, allergen_id := 2, confidence := some d }).isOk
      = decimalOk 5 4 d := by
  constructor
  · cases hd : decimalOk 5 4 d with
    | true =>
      have h : naErrors { food_image_id := 42, confidence_score := some d } = [] := by
        unfold naErrors
        simp only
        simp [optDecErr, optStrErr, hd]
      unfold constructNutritionalAnalysis
      rw [h]
      rfl
    | false =>
      have h : naErrors { food_image_id := 42, confidence_score := some d } =
          [⟨"confidence_score", decConstraint 5 4⟩] := by
        unfold naErrors
        simp only
        simp [optDecErr, optStrErr, hd]
      unfold constructNutritionalAnalysis
      rw [h]
      rfl
  · cases hd : decimalOk 5 4 d with
    | true =>
      have h : analysisAllergenErrors
          { analysis_id := 1, allergen_id := 2, confidence := some d } = [] := by
        unfold analysisAllergenErrors
        simp only
        simp [optDecErr, optStrErr, hd]
      unfold constructAnalysisAllergen
      rw [h]
      rfl
    | false =>
      have h : analysisAllergenErrors
          { analysis_id := 1, allergen_id := 2, confidence := some d } =
          [⟨"confidence", decConstraint 5 4⟩] := by
        unfold analysisAllergenErrors
        simp only
        simp [optDecErr, optStrErr, hd]
      unfold constructAnalysisAllergen
      rw [h]
      rfl

/-! ## Claim C4 -/

/-- C4: `ApplyUpdate(record, update)` (modelled from the spec — the
repository declares the update shapes only) overwrites exactly the fields
present in the update and leaves every other field unchanged. Stated for
every field of both records: the all-absent update is a no-op on `User` and
`NutritionalAnalysis` records, and for an arbitrary update the result is
characterized field by field — each of the updatable fields (`username`,
`email`, `full_name`, `is_active`; `status`, `error_message`,
`raw_response`) takes the update value exactly when present and keeps the
record value when absent, and every field outside the update shape (ids,
timestamps, identification, nutrients, portion, metadata) keeps the record
value unconditionally. -/
theorem apply_update_patches_present_fields_only (r : UserRec) (n : NARec)
    (u : UserUpdate) (m : NAUpdate) :
    applyUserUpdate r emptyUserUpdate = r ∧
    applyNAUpdate n emptyNAUpdate = n ∧
    applyUserUpdate r u =
      { id := r.id
        username := u.username.getD r.username
        email := u.email.getD r.email
        full_name := (u.full_name.map some).getD r.full_name
        is_active := u.is_active.getD r.is_active
        created_at := r.created_at
        updated_at := r.updated_at } ∧
    applyNAUpdate n m =
      { id := n.id
        food_image_id := n.food_image_id
        status := m.status.getD n.status
        food_name := n.food_name
        food_category := n.food_category
        confidence_score := n.confidence_score
        calories := n.calories
        protein := n.protein
        carbohydrates := n.carbohydrates
        total_fat := n.total_fat
        saturated_fat := n.saturated_fat
        fiber := n.fiber
        sugar := n.sugar
        sodium := n.sodium
        vitamin_a := n.vitamin_a
        vitamin_c := n.vitamin_c
        vitamin_d := n.vitamin_d
        vitamin_e := n.vitamin_e
        vitamin_k := n.vitamin_k
        vitamin_b1 := n.vitamin_b1
        vitamin_b2 := n.vitamin_b2
        vitamin_b3 := n.vitamin_b3
        vitamin_b6 := n.vitamin_b6
        vitamin_b12 := n.vitamin_b12
        folate := n.folate
        calcium := n.calcium
        iron := n.iron
        magnesium := n.magnesium
        phosphorus := n.phosphorus
        potassium := n.potassium
        zinc := n.zinc
        estimated_weight := n.estimated_weight
        serving_size := n.serving_size
        analysis_model := n.analysis_model
        analysis_version := n.analysis_version
        processing_time := n.processing_time
        error_message := (m.error_message.map some).getD n.error_message
        raw_response := (m.raw_response.map some).getD n.raw_response
        created_at := n.created_at
        updated_at := n.updated_at } := by
  refine ⟨rfl, rfl, ?_, ?_⟩
  · obtain ⟨uu, ue, uf, ua⟩ := u
    cases uf <;> rfl
  · obtain ⟨ms, me, mr⟩ := m
    cases me <;> cases mr <;> rfl

/-! ## Claim C5 -/

/-- C5: the response shapes expose no raw/internal fields of the persistent
record. The persistent `NutritionalAnalysis` row has `raw_response` and
`error_message` fields, but neither name is among the declared fields of
`NutritionalAnalysisResponse` or of `FoodImageResponse`; moreover
`ProjectToResponse` (modelled from the spec) is insensitive to the values
of `raw_response` and `error_message`: changing them on the record leaves
the projected response unchanged. -/
theorem response_shapes_hide_raw_and_error (rid : Int) (ns : List String)
    (r : NARec) (rr : Option RawDoc) (em : Option String) :
    ("raw_response" ∈ nutritionalAnalysisFields ∧
      "error_message" ∈ nutritionalAnalysisFields) ∧
    ("raw_response" ∉ nutritionalAnalysisResponseFields ∧
      "error_message" ∉ nutritionalAnalysisResponseFields) ∧
    ("raw_response" ∉ foodImageResponseFields ∧
      "error_message" ∉ foodImageResponseFields) ∧
    projectNAToResponse rid ns { r with raw_response := rr, error_message := em }
      = projectNAToResponse rid ns r :=
  ⟨by decide, by decide, by decide, rfl⟩

/-! ## Claim C6 -/

/-- C6, counterexample: construction is not a function of the field values
alone. On the same valid input (timestamps omitted), `Construct(User, ...)`
invoked when the clock reads 0 and when it reads 1 yields records that
differ in `created_at`/`updated_at`, because the declared
`default_factory=datetime.utcnow` reads the ambient clock. -/
theorem construct_user_clock_dependent :
    constructUser 0 validUser ≠ constructUser 1 validUser := by decide

/-- C6, amended: construction is deterministic in the field values plus the
clock reading; the ambient clock only flows into the defaulted timestamp
fields. Whenever `created_at` and `updated_at` are supplied explicitly, two
invocations of `Construct` on the same values at different clock readings
yield field-wise identical `User` and `NutritionalAnalysis` records. -/
theorem construct_deterministic_given_timestamps (now1 now2 : Nat)
    (i : UserInput) (j : NAInput)
    (hic : i.created_at.isSome = true) (hiu : i.updated_at.isSome = true)
    (hjc : j.created_at.isSome = true) (hju : j.updated_at.isSome = true) :
    constructUser now1 i = constructUser now2 i ∧
    constructNutritionalAnalysis now1 j = constructNutritionalAnalysis now2 j := by
  obtain ⟨c, hc⟩ := Option.isSome_iff_exists.mp hic
  obtain ⟨u, hu⟩ := Option.isSome_iff_exists.mp hiu
  obtain ⟨c2, hc2⟩ := Option.isSome_iff_exists.mp hjc
  obtain ⟨u2, hu2⟩ := Option.isSome_iff_exists.mp hju
  constructor
  · unfold constructUser
    cases userErrors i <;> simp [hc, hu]
  · unfold constructNutritionalAnalysis
    cases naErrors j <;> simp [hc2, hu2]

/-- C6, witness: the amended theorem applied to concrete inputs with
explicit timestamps, at clock readings 0 and 5. -/
theorem construct_deterministic_given_timestamps_witness :
    constructUser 0 stampedUser = constructUser 5 stampedUser ∧
    constructNutritionalAnalysis 0 stampedNA
      = constructNutritionalAnalysis 5 stampedNA :=
  construct_deterministic_given_timestamps 0 5 stampedUser stampedNA
    rfl rfl rfl rfl

/-! ## Claim C7 -/

/-- C7: for every `FoodImage` input whose other fields are valid, if
`file_size ≤ 0` then `Construct` fails with a ValidationError naming
`file_size` and the `gt 0` constraint, and the same input with
`file_size = 1` constructs successfully. -/
theorem food_image_file_size_gate (now : Nat) (i : FoodImageInput)
    (h1 : strErr "filename" 255 i.filename = [])
    (h2 : strErr "file_path" 500 i.file_path = [])
    (h3 : strErr "mime_type" 100 i.mime_type = [])
    (h4 : optStrErr "original_filename" 255 i.original_filename = [])
    (h5 : optStrErr "description" 1000 i.description = [])
    (hs : i.file_size ≤ 0) :
    (∃ es, constructFoodImage now i = .error es ∧
        (⟨"file_size", "gt 0"⟩ : ValidationError) ∈ es) ∧
    (constructFoodImage now { i with file_size := 1 }).isOk = true := by
  constructor
  · have he : foodImageErrors i = [⟨"file_size", "gt 0"⟩] := by
      unfold foodImageErrors
      rw [h1, h2, h3, h4, h5]
      rw [if_neg (by omega)]
      rfl
    exact ⟨[⟨"file_size", "gt 0"⟩], by simp [constructFoodImage, he], by simp⟩
  · have he2 : foodImageErrors { i with file_size := 1 } = [] := by
      unfold foodImageErrors
      simp only
      rw [h1, h2, h3, h4, h5]
      rw [if_pos (by omega)]
      rfl
    unfold constructFoodImage
    rw [he2]
    rfl

/-- C7, witness: the theorem applied to a concrete image input with
`file_size = 0`. -/
theorem food_image_file_size_gate_witness :
    (∃ es, constructFoodImage 0 zeroSizeImage = .error es ∧
        (⟨"file_size", "gt 0"⟩ : ValidationError) ∈ es) ∧
    (constructFoodImage 0 { zeroSizeImage with file_size := 1 }).isOk = true :=
  food_image_file_size_gate 0 zeroSizeImage rfl rfl rfl rfl rfl (by decide)

/-! ## Claim C8 -/

/-- C8: for every valid `User` input, `Construct` succeeds, and projecting
the constructed record through `ProjectToResponse` (modelled from the spec)
preserves every displayed field unchanged — the response carries exactly the
input username, email, full name and resolved active flag, with the
timestamp rendered as its ISO string. -/
theorem user_construct_roundtrip (now : Nat) (i : UserInput)
    (h : userErrors i = []) :
    ∃ u, constructUser now i = .ok u ∧
      projectUserToResponse u =
        { username := i.username
          email := i.email
          full_name := i.full_name
          is_active := i.is_active.getD true
          created_at := isoString (i.created_at.getD now) } := by
  have hc : constructUser now i = .ok
      { id := i.id, username := i.username, email := i.email,
        full_name := i.full_name, is_active := i.is_active.getD true,
        created_at := i.created_at.getD now,
        updated_at := i.updated_at.getD now } := by
    unfold constructUser
    rw [h]
  exact ⟨_, hc, rfl⟩

/-- C8, witness: the theorem applied to a concrete valid input. -/
theorem user_construct_roundtrip_witness :
    ∃ u, constructUser 3 validUser = .ok u ∧
      projectUserToResponse u =
        { username := validUser.username
          email := validUser.email
          full_name := validUser.full_name
          is_active := validUser.is_active.getD true
          created_at := isoString (validUser.created_at.getD 3) } :=
  user_construct_roundtrip 3 validUser (by decide)

/-! ## Claim C9 -/

/-- C9: constructing a `UserAllergenCreate` with the severity field omitted
yields the declared default `severity = medium`, and constructing an
`AnalysisAllergenCreate` with the confidence field omitted yields an absent
(`none`, not zero) confidence value. -/
theorem omitted_severity_and_confidence_defaults (uid aid xid : Int) :
    constructUserAllergenCreate { user_id := uid, allergen_id := aid } =
      .ok { user_id := uid, allergen_id := aid, severity := .medium,
            notes := none } ∧
    constructAnalysisAllergenCreate { analysis_id := xid, allergen_id := aid } =
      .ok { analysis_id := xid, allergen_id := aid, severity := .low,
            confidence := none, notes := none } :=
  ⟨rfl, rfl⟩

/-! ## Claim C10 -/

/-- C10: constructing an `AnalysisAllergen` or an `AnalysisAllergenCreate`
with the severity field omitted yields `severity = low`, while the
user-declared `UserAllergen` and `UserAllergenCreate` shapes default to
`severity = medium` — two different defaults. -/
theorem detected_severity_defaults_low_declared_defaults_medium
    (now : Nat) (xid aid uid : Int) :
    constructAnalysisAllergen now { analysis_id := xid, allergen_id := aid } =
      .ok { id := none, analysis_id := xid, allergen_id := aid,
            severity := .low, confidence := none, notes := none,
            detected_at := now } ∧
    constructAnalysisAllergenCreate { analysis_id := xid, allergen_id := aid } =
      .ok { analysis_id := xid, allergen_id := aid, severity := .low,
            confidence := none, notes := none } ∧
    constructUserAllergen now { user_id := uid, allergen_id := aid } =
      .ok { id := none, user_id := uid, allergen_id := aid,
            severity := .medium, notes := none, created_at := now } ∧
    constructUserAllergenCreate { user_id := uid, allergen_id := aid } =
      .ok { user_id := uid, allergen_id := aid, severity := .medium,
            notes := none } ∧
    AllergenSeverity.low ≠ AllergenSeverity.medium :=
  ⟨rfl, rfl, rfl, rfl, by decide⟩
